import Mathlib

/-!
Shallow embedding of `st6_operational_check.py`, a pre-flight readiness
checker.  The script runs a fixed sequence of checks (Python version, API
key format, required packages, API connectivity, secret scan, git status),
accumulates pass/fail/warning counters and a result list, prints a summary
and exits 0 iff no check failed.

External state read by the script (environment variables, importability of
packages, the outcome of the network call, the file tree walked by the
secret scan, the outcome of the git subprocess) is modelled as an explicit
`Env` record; each check is a function from its slice of `Env` and the
session state to a new session state.  A check that can let an exception
escape (only `check_git_status`, which catches `FileNotFoundError` alone)
returns `Except String CheckState`, the `error` case being the propagated
exception's message.
-/

namespace ST6

/-- Character-list version of Python's `str.startswith` test. -/
def leadsWith : List Char → List Char → Bool
  | [], _ => true
  | _ :: _, [] => false
  | a :: as, b :: bs => a == b && leadsWith as bs

/-- Python's `needle in hay` substring test, on character lists. -/
def hasSub (need : List Char) : List Char → Bool
  | [] => leadsWith need []
  | c :: t => leadsWith need (c :: t) || hasSub need t

/-- Whether `sub` occurs as a contiguous substring of `s` (Python `sub in s`). -/
def strContains (s sub : String) : Bool := hasSub sub.toList s.toList

/-- Python `s.startswith(p)`. -/
def strStarts (s p : String) : Bool := leadsWith p.toList s.toList

/-- Python `s.endswith(p)`. -/
def strEnds (s p : String) : Bool := leadsWith p.toList.reverse s.toList.reverse

/-- The whitespace characters stripped by Python's `str.strip()`. -/
def pyIsSpace (c : Char) : Bool :=
  c == ' ' || c == '\t' || c == '\n' || c == '\r' ||
  c == Char.ofNat 11 || c == Char.ofNat 12

/-- Python `s.strip()`. -/
def pyStrip (s : String) : String :=
  String.mk (((s.toList.dropWhile pyIsSpace).reverse.dropWhile pyIsSpace).reverse)

/-- Python truthiness of an `os.getenv` result: `None` and `""` are falsy. -/
def pyFalsy : Option String → Bool
  | none => true
  | some s => s.isEmpty

/-- One recorded entry of `self.results`: `(check_name, passed, details)`. -/
abbrev ResultEntry := String × Bool × String

/-- The mutable state of an `OperationalCheck` instance (the wall-clock
`start_time` only feeds the printed duration, never a classification, so it
is not modelled). -/
structure CheckState where
  checks_passed : Nat
  checks_failed : Nat
  warnings : Nat
  results : List ResultEntry
deriving Repr, DecidableEq

/-- The state of a freshly constructed `OperationalCheck`. -/
def initState : CheckState := ⟨0, 0, 0, []⟩

/-- Model of `OperationalCheck.check_result`: increment the pass or fail counter and
append the entry to `self.results`. -/
def check_result (s : CheckState) (check_name : String) (passed : Bool)
    (details : String) : CheckState :=
  { s with
    checks_passed := if passed then s.checks_passed + 1 else s.checks_passed
    checks_failed := if passed then s.checks_failed else s.checks_failed + 1
    results := s.results ++ [(check_name, passed, details)] }

/-- Model of `OperationalCheck.warning_result`: increment the warning counter only
(the entry is printed but not appended to `self.results`). -/
def warning_result (s : CheckState) (_check_name : String)
    (_details : String) : CheckState :=
  { s with warnings := s.warnings + 1 }

/-- Model of `sys.version_info >= (3, 8)`: Python compares the 5-tuple with the
2-tuple lexicographically, and a longer tuple extending an equal one
compares greater, so the test depends only on major and minor. -/
def versionOk (major minor : Nat) : Bool :=
  major > 3 || (major == 3 && minor >= 8)

/-- Model of `OperationalCheck.check_python_version`. -/
def check_python_version (major minor micro : Nat) (s : CheckState) :
    CheckState :=
  let passed := versionOk major minor
  let details :=
    "Python " ++ toString major ++ "." ++ toString minor ++ "." ++
      toString micro ++
      (if passed then "" else " (Minimum required: 3.8)")
  check_result s "Python Version" passed details

/-- Model of `OperationalCheck.check_openai_api_key`, as a function of
`os.getenv('OPENAI_API_KEY')` (`none` = variable unset). -/
def check_openai_api_key (api_key : Option String) (s : CheckState) :
    CheckState :=
  if pyFalsy api_key then
    check_result s "OpenAI API Key" false
      "OPENAI_API_KEY environment variable not set"
  else
    let k := api_key.getD ""
    if strStarts k "sk-" then
      if k.length > 20 then
        check_result s "OpenAI API Key" true "Key format appears valid"
      else
        check_result s "OpenAI API Key" false "Key appears too short"
    else
      check_result s "OpenAI API Key" false
        "Key format invalid (should start with 'sk-')"

/-- The fixed `required_packages` list. -/
def required_packages : List String :=
  ["openai", "requests", "numpy", "pandas", "matplotlib", "jupyter",
   "tiktoken"]

/-- Model of `OperationalCheck.check_required_packages`, as a function of which
module names are importable. -/
def check_required_packages (importable : String → Bool) (s : CheckState) :
    CheckState :=
  let missing_packages := required_packages.filter (fun p => !importable p)
  if missing_packages.isEmpty then
    check_result s "Required Packages" true "All critical packages installed"
  else
    check_result s "Required Packages" false
      ("Missing packages: " ++ String.intercalate ", " missing_packages)

/-- Outcome of `import openai; openai.OpenAI().models.list()`:
the import raises `ImportError`, the call raises some other exception with
message `msg`, or the call succeeds. -/
inductive ConnOutcome where
  | importError : ConnOutcome
  | raised : String → ConnOutcome
  | ok : ConnOutcome
deriving Repr, DecidableEq

/-- Model of `OperationalCheck.check_openai_connectivity`. -/
def check_openai_connectivity (conn : ConnOutcome) (s : CheckState) :
    CheckState :=
  match conn with
  | .ok =>
      check_result s "OpenAI API Connectivity" true
        "API accessible and responding"
  | .importError =>
      check_result s "OpenAI API Connectivity" false
        "OpenAI package not installed"
  | .raised msg =>
      check_result s "OpenAI API Connectivity" false
        ("Connection failed: " ++ msg)

/-- One file visited by the `os.walk('.')` loop: its basename (tested with
`.endswith('.py')`), the joined path used in the issue message, and its
content — `none` when `open`/`read` raises, which the bare `except` turns
into `continue`. -/
structure PyFile where
  fname : String
  path : String
  content : Option String
deriving Repr, DecidableEq

/-- Outcome of the walk inside `check_security_protocols`'s outer `try`:
either it completes over `files`, or an exception with message `msg` is
raised after `files` were already processed — `except Exception: pass`
swallows it, keeping the issues collected so far. -/
inductive WalkOutcome where
  | completed : List PyFile → WalkOutcome
  | errAfter : List PyFile → String → WalkOutcome
deriving Repr, DecidableEq

/-- The `issues` list accumulated by the file loop of
`check_security_protocols`: one message per readable `.py` file whose
content contains `sk-` but not `OPENAI_API_KEY`. -/
def scanIssues : List PyFile → List String
  | [] => []
  | f :: rest =>
      if strEnds f.fname ".py" then
        match f.content with
        | none => scanIssues rest
        | some content =>
            if strContains content "sk-" &&
                !strContains content "OPENAI_API_KEY" then
              ("Potential hardcoded key in " ++ f.path) :: scanIssues rest
            else
              scanIssues rest
      else
        scanIssues rest

/-- The files whose scan appends an issue. -/
def suspicious (f : PyFile) : Bool :=
  strEnds f.fname ".py" &&
    (match f.content with
     | none => false
     | some content =>
         strContains content "sk-" && !strContains content "OPENAI_API_KEY")

/-- Model of `OperationalCheck.check_security_protocols`, as a function of whether
`.env` exists and of the walk outcome.  An exception during the walk is
swallowed (`except Exception: pass`), after which the `issues` gathered so
far are reported exactly as in the normal path. -/
def check_security_protocols (envFileExists : Bool) (walk : WalkOutcome)
    (s : CheckState) : CheckState :=
  let s :=
    if envFileExists then
      warning_result s "Security Check"
        ".env file present - ensure it's in .gitignore"
    else s
  let issues :=
    match walk with
    | .completed files => scanIssues files
    | .errAfter files _ => scanIssues files
  if issues.isEmpty then
    check_result s "Security Protocols" true
      "No obvious security issues detected"
  else
    issues.foldl
      (fun st issue => check_result st "Security Protocols" false issue) s

/-- Outcome of `subprocess.run(['git', 'status', '--porcelain'], ...)`:
the tool is absent (`FileNotFoundError`), some other exception with message
`msg` is raised (not caught by the check), or the process ran and produced
`returncode` and `stdout`. -/
inductive GitOutcome where
  | notInstalled : GitOutcome
  | raised : String → GitOutcome
  | ran : Int → String → GitOutcome
deriving Repr, DecidableEq

/-- Model of `OperationalCheck.check_git_status`.  Only `FileNotFoundError` is
caught; any other exception from `subprocess.run` propagates out of the
check (the `error` case). -/
def check_git_status (git : GitOutcome) (s : CheckState) :
    Except String CheckState :=
  match git with
  | .notInstalled =>
      .ok (check_result s "Git Status" false "Git not installed")
  | .raised msg => .error msg
  | .ran returncode stdout =>
      if returncode == 0 then
        if !(pyStrip stdout).isEmpty then
          .ok (warning_result s "Git Status" "Uncommitted changes detected")
        else
          .ok (check_result s "Git Status" true "Working directory clean")
      else
        .ok (check_result s "Git Status" false
          "Not a git repository or git error")

/-- Everything external the run reads, one field per probe. -/
structure Env where
  py_major : Nat
  py_minor : Nat
  py_micro : Nat
  api_key : Option String
  importable : String → Bool
  conn : ConnOutcome
  envFileExists : Bool
  walk : WalkOutcome
  git : GitOutcome

/-- The check sequence of `main`, in source order.  The result is `error`
when an uncaught exception escapes a check (only possible in
`check_git_status`). -/
def runChecks (e : Env) : Except String CheckState :=
  let s := check_python_version e.py_major e.py_minor e.py_micro initState
  let s := check_openai_api_key e.api_key s
  let s := check_required_packages e.importable s
  let s := check_openai_connectivity e.conn s
  let s := check_security_protocols e.envFileExists e.walk s
  check_git_status e.git s

/-- Model of `main`: run all checks, then `return 0 if checker.checks_failed == 0
else 1`.  `error` models the process dying on an uncaught exception. -/
def main (e : Env) : Except String Nat :=
  match runChecks e with
  | .error msg => .error msg
  | .ok s => .ok (if s.checks_failed == 0 then 0 else 1)

/-- The `total_checks` value of `print_summary`. -/
def total_checks (s : CheckState) : Nat := s.checks_passed + s.checks_failed

/-- The `success_rate` of `print_summary`
(`checks_passed / total_checks * 100 if total_checks > 0 else 0`), with the
float arithmetic modelled exactly over ℚ. -/
def success_rate (s : CheckState) : ℚ :=
  if total_checks s > 0 then
    (s.checks_passed : ℚ) / (total_checks s : ℚ) * 100
  else 0

/-- The final status line of `print_summary` reports "READY FOR
OPERATIONS" exactly when this is `true` (`self.checks_failed == 0`). -/
def missionReady (s : CheckState) : Bool := s.checks_failed == 0

/-- The single result entry appended by the connectivity check. -/
def connEntry : ConnOutcome → ResultEntry
  | .ok => ("OpenAI API Connectivity", true, "API accessible and responding")
  | .importError =>
      ("OpenAI API Connectivity", false, "OpenAI package not installed")
  | .raised msg =>
      ("OpenAI API Connectivity", false, "Connection failed: " ++ msg)

/-- The result entries appended by the security check for a given walk
outcome. -/
def secResults (walk : WalkOutcome) : List ResultEntry :=
  let issues :=
    match walk with
    | .completed files => scanIssues files
    | .errAfter files _ => scanIssues files
  if issues.isEmpty then
    [("Security Protocols", true, "No obvious security issues detected")]
  else
    issues.map (fun i => ("Security Protocols", false, i))

/-- The result entries appended by the git check when it does not raise. -/
def gitEntries : GitOutcome → List ResultEntry
  | .notInstalled => [("Git Status", false, "Git not installed")]
  | .raised _ => []
  | .ran returncode stdout =>
      if returncode == 0 then
        if !(pyStrip stdout).isEmpty then []
        else [("Git Status", true, "Working directory clean")]
      else [("Git Status", false, "Not a git repository or git error")]

/-- Keeps a result entry iff it does not belong to the network-dependent
connectivity check. -/
def isNotConn (r : ResultEntry) : Bool := r.1 != "OpenAI API Connectivity"

/-- The pass/fail classifications of a run restricted to the
non-network-dependent checks: each recorded `(name, passed)` pair except
the connectivity check's one (`error` when the run died on an uncaught
exception). -/
def nonNetworkClassifications (e : Env) : Except String (List (String × Bool)) :=
  match runChecks e with
  | .error msg => .error msg
  | .ok s =>
      .ok (((s.results.filter isNotConn).map (fun r => (r.1, r.2.1))))

/-- A concrete environment in which every probe succeeds. -/
def envAllGood : Env where
  py_major := 3
  py_minor := 10
  py_micro := 2
  api_key := some ("sk-" ++ String.mk (List.replicate 25 'x'))
  importable := fun _ => true
  conn := .ok
  envFileExists := false
  walk := .completed []
  git := .ran 0 ""

/-- The session state `runChecks envAllGood` ends in. -/
def stateAllGood : CheckState where
  checks_passed := 6
  checks_failed := 0
  warnings := 0
  results :=
    [("Python Version", true, "Python 3.10.2"),
     ("OpenAI API Key", true, "Key format appears valid"),
     ("Required Packages", true, "All critical packages installed"),
     ("OpenAI API Connectivity", true, "API accessible and responding"),
     ("Security Protocols", true, "No obvious security issues detected"),
     ("Git Status", true, "Working directory clean")]

/-- A concrete session state with both passes and failures, for
instantiating summary statements. -/
def sampleState : CheckState := ⟨3, 1, 2, []⟩

/-- The counter/result-list invariant: every recorded binary result was
counted exactly once. -/
def countsOk (s : CheckState) : Prop :=
  s.checks_passed + s.checks_failed = s.results.length

end ST6

namespace ST6

/-! ### Helper lemmas -/

theorem check_result_results (s : CheckState) (n : String) (p : Bool)
    (d : String) : (check_result s n p d).results = s.results ++ [(n, p, d)] :=
  rfl

theorem warning_result_results (s : CheckState) (n d : String) :
    (warning_result s n d).results = s.results :=
  rfl

theorem conn_results (c : ConnOutcome) (s : CheckState) :
    (check_openai_connectivity c s).results = s.results ++ [connEntry c] := by
  cases c <;> rfl

theorem foldl_fail_results (issues : List String) (s : CheckState) :
    (issues.foldl
        (fun st issue => check_result st "Security Protocols" false issue)
        s).results =
      s.results ++ issues.map (fun i => ("Security Protocols", false, i)) := by
  induction issues generalizing s with
  | nil => simp
  | cons i rest ih =>
    rw [List.foldl_cons, ih]
    simp [check_result]

theorem sec_results_decomp (envF : Bool) (w : WalkOutcome) (s : CheckState) :
    (check_security_protocols envF w s).results = s.results ++ secResults w := by
  have hres :
      (if envF then
          warning_result s "Security Check"
            ".env file present - ensure it's in .gitignore"
        else s).results = s.results := by
    cases envF <;> rfl
  simp only [check_security_protocols, secResults]
  split
  · rw [check_result_results, hres]
  · rw [foldl_fail_results, hres]

theorem scanIssues_unreadable (fname path : String) (rest : List PyFile) :
    scanIssues (⟨fname, path, none⟩ :: rest) = scanIssues rest := by
  simp only [scanIssues]
  split <;> rfl

theorem scanIssues_eq_filter (files : List PyFile) :
    scanIssues files =
      (files.filter suspicious).map
        (fun f => "Potential hardcoded key in " ++ f.path) := by
  induction files with
  | nil => rfl
  | cons f rest ih =>
    obtain ⟨fn, p, c⟩ := f
    simp only [scanIssues, List.filter_cons, suspicious]
    cases c with
    | none =>
      rcases Bool.eq_false_or_eq_true (strEnds fn ".py") with he | he <;>
        simp [he, ih]
    | some content =>
      rcases Bool.eq_false_or_eq_true (strEnds fn ".py") with he | he <;>
        rcases Bool.eq_false_or_eq_true (strContains content "sk-" &&
            !strContains content "OPENAI_API_KEY") with hs | hs <;>
        simp [he, hs, ih]

theorem leadsWith_append (p xs ys : List Char)
    (h : leadsWith p xs = true) : leadsWith p (xs ++ ys) = true := by
  induction p generalizing xs with
  | nil => rfl
  | cons a as ih =>
    cases xs with
    | nil => simp [leadsWith] at h
    | cons b bs =>
      simp only [leadsWith, Bool.and_eq_true] at h ⊢
      exact ⟨h.1, ih bs h.2⟩

theorem filter_secstate (A : CheckState) (c : ConnOutcome) (envF : Bool)
    (w : WalkOutcome) :
    ((check_security_protocols envF w
        (check_openai_connectivity c A)).results).filter isNotConn =
      A.results.filter isNotConn ++ (secResults w).filter isNotConn := by
  rw [sec_results_decomp, conn_results]
  have hc : isNotConn (connEntry c) = false := by cases c <;> rfl
  simp [List.filter_append, List.filter_cons, hc]

theorem countsOk_check_result (s : CheckState) (n : String) (p : Bool)
    (d : String) (h : countsOk s) : countsOk (check_result s n p d) := by
  unfold countsOk check_result at *
  cases p <;> simp <;> omega

theorem countsOk_warning (s : CheckState) (n d : String) (h : countsOk s) :
    countsOk (warning_result s n d) := h

theorem countsOk_foldl (issues : List String) (s : CheckState)
    (h : countsOk s) :
    countsOk (issues.foldl
      (fun st issue => check_result st "Security Protocols" false issue) s) := by
  induction issues generalizing s with
  | nil => exact h
  | cons i rest ih => exact ih _ (countsOk_check_result _ _ _ _ h)

theorem countsOk_py (major minor micro : Nat) (s : CheckState)
    (h : countsOk s) : countsOk (check_python_version major minor micro s) :=
  countsOk_check_result _ _ _ _ h

theorem countsOk_key (k : Option String) (s : CheckState) (h : countsOk s) :
    countsOk (check_openai_api_key k s) := by
  simp only [check_openai_api_key]
  split
  · exact countsOk_check_result _ _ _ _ h
  · split
    · split
      · exact countsOk_check_result _ _ _ _ h
      · exact countsOk_check_result _ _ _ _ h
    · exact countsOk_check_result _ _ _ _ h

theorem countsOk_packages (importable : String → Bool) (s : CheckState)
    (h : countsOk s) : countsOk (check_required_packages importable s) := by
  simp only [check_required_packages]
  split
  · exact countsOk_check_result _ _ _ _ h
  · exact countsOk_check_result _ _ _ _ h

theorem countsOk_conn (c : ConnOutcome) (s : CheckState) (h : countsOk s) :
    countsOk (check_openai_connectivity c s) := by
  cases c <;> exact countsOk_check_result _ _ _ _ h

theorem countsOk_security (envF : Bool) (w : WalkOutcome) (s : CheckState)
    (h : countsOk s) : countsOk (check_security_protocols envF w s) := by
  cases envF with
  | false =>
    simp only [check_security_protocols, Bool.false_eq_true, if_false]
    split
    · exact countsOk_check_result _ _ _ _ h
    · exact countsOk_foldl _ _ h
  | true =>
    simp only [check_security_protocols, if_true]
    split
    · exact countsOk_check_result _ _ _ _ (countsOk_warning _ _ _ h)
    · exact countsOk_foldl _ _ (countsOk_warning _ _ _ h)

theorem countsOk_git (g : GitOutcome) (s s' : CheckState) (h : countsOk s)
    (hok : check_git_status g s = .ok s') : countsOk s' := by
  cases g with
  | notInstalled =>
    simp only [check_git_status, Except.ok.injEq] at hok
    exact hok ▸ countsOk_check_result _ _ _ _ h
  | raised msg => simp [check_git_status] at hok
  | ran rc out =>
    simp only [check_git_status] at hok
    split at hok
    · split at hok
      · simp only [Except.ok.injEq] at hok
        subst hok
        exact countsOk_warning _ _ _ h
      · simp only [Except.ok.injEq] at hok
        subst hok
        exact countsOk_check_result _ _ _ _ h
    · simp only [Except.ok.injEq] at hok
      subst hok
      exact countsOk_check_result _ _ _ _ h

end ST6

namespace ST6

/-! ### Claim theorems -/

/-- C1: the exit code returned by `main` is `0` iff `checks_failed` is `0`
after all checks execute, `1` otherwise, and it is a function of the final
fail count alone — so the warning count has no effect on it. -/
theorem c1_exit_code (e : Env) (s : CheckState)
    (h : runChecks e = .ok s) :
    ((main e = .ok 0 ↔ s.checks_failed = 0) ∧
      (s.checks_failed ≠ 0 → main e = .ok 1)) ∧
    (∀ (e2 : Env) (s2 : CheckState), runChecks e2 = .ok s2 →
      s2.checks_failed = s.checks_failed → main e2 = main e) := by
  refine ⟨⟨?_, ?_⟩, ?_⟩
  · by_cases hc : s.checks_failed = 0 <;> simp [main, h, hc]
  · intro hne
    simp [main, h, hne]
  · intro e2 s2 h2 hfe
    simp [main, h, h2, hfe]

/-- C1 witness: the exit-code law instantiated at a concrete all-good
environment. -/
theorem c1_witness :
    (main envAllGood = .ok 0 ↔ stateAllGood.checks_failed = 0) ∧
    (stateAllGood.checks_failed ≠ 0 → main envAllGood = .ok 1) :=
  (c1_exit_code envAllGood stateAllGood (by rfl)).1

/-- C2 counterexample: the empty string does not start with `sk-`, yet the
check classifies it with the not-set detail, not the invalid-format detail
the claim requires for every value without the prefix. -/
theorem c2_counterexample :
    strStarts "" "sk-" = false ∧
    check_openai_api_key (some "") initState =
      check_result initState "OpenAI API Key" false
        "OPENAI_API_KEY environment variable not set" ∧
    check_openai_api_key (some "") initState ≠
      check_result initState "OpenAI API Key" false
        "Key format invalid (should start with 'sk-')" :=
  ⟨rfl, rfl, by decide⟩

/-- C2 (amended): a value with the `sk-` prefix and length > 20 yields
Pass; one with the prefix but length ≤ 20 yields the too-short Fail; a
NONEMPTY value without the prefix yields the invalid-format Fail; an unset
variable yields the not-set Fail. -/
theorem c2_api_key_classification (k : String) (s : CheckState) :
    (strStarts k "sk-" = true → k.length > 20 →
      check_openai_api_key (some k) s =
        check_result s "OpenAI API Key" true "Key format appears valid") ∧
    (strStarts k "sk-" = true → k.length ≤ 20 →
      check_openai_api_key (some k) s =
        check_result s "OpenAI API Key" false "Key appears too short") ∧
    (k ≠ "" → strStarts k "sk-" = false →
      check_openai_api_key (some k) s =
        check_result s "OpenAI API Key" false
          "Key format invalid (should start with 'sk-')") ∧
    check_openai_api_key none s =
      check_result s "OpenAI API Key" false
        "OPENAI_API_KEY environment variable not set" := by
  refine ⟨?_, ?_, ?_, rfl⟩
  · intro hpre hlen
    have hne : k ≠ "" := by
      intro h0
      subst h0
      exact absurd hpre (by decide)
    simp [check_openai_api_key, pyFalsy, String.isEmpty_iff, hne, hpre, hlen]
  · intro hpre hlen
    have hne : k ≠ "" := by
      intro h0
      subst h0
      exact absurd hpre (by decide)
    have hgt : ¬ k.length > 20 := by omega
    simp [check_openai_api_key, pyFalsy, String.isEmpty_iff, hne, hpre, hgt]
  · intro hne hpre
    simp [check_openai_api_key, pyFalsy, String.isEmpty_iff, hne, hpre]

/-- C2 witness: the amended classification instantiated at the spec's four
sample inputs. -/
theorem c2_witness :
    check_openai_api_key (some ("sk-" ++ String.mk (List.replicate 25 'x')))
        initState =
      check_result initState "OpenAI API Key" true "Key format appears valid" ∧
    check_openai_api_key (some "sk-short") initState =
      check_result initState "OpenAI API Key" false "Key appears too short" ∧
    check_openai_api_key (some "bad-prefix-0000000000000000") initState =
      check_result initState "OpenAI API Key" false
        "Key format invalid (should start with 'sk-')" ∧
    check_openai_api_key none initState =
      check_result initState "OpenAI API Key" false
        "OPENAI_API_KEY environment variable not set" :=
  ⟨(c2_api_key_classification ("sk-" ++ String.mk (List.replicate 25 'x'))
      initState).1 (by decide) (by decide),
   (c2_api_key_classification "sk-short" initState).2.1 (by decide) (by decide),
   (c2_api_key_classification "bad-prefix-0000000000000000" initState).2.2.1
     (by decide) (by decide),
   (c2_api_key_classification "x" initState).2.2.2⟩

/-- C3 counterexample: an exception raised during the security scan's walk
is swallowed and the check records a Pass — not a Fail carrying the error
message — and an exception other than `FileNotFoundError` in the git check
propagates and terminates the whole run. -/
theorem c3_counterexample :
    check_security_protocols false (.errAfter [] "boom") initState =
      check_result initState "Security Protocols" true
        "No obvious security issues detected" ∧
    check_git_status (.raised "boom") initState = .error "boom" ∧
    main { envAllGood with git := .raised "boom" } = .error "boom" :=
  ⟨rfl, rfl, rfl⟩

/-- C3 (amended): an unreadable file is silently skipped by the secret
scan; an exception during the walk is swallowed, the scan reporting from
the issues already collected (a Pass when none), not a Fail with the
message; the connectivity check does downgrade any non-import exception to
a Fail carrying the message; the git check downgrades only absence of the
tool, while any other exception escapes and terminates the run. -/
theorem c3_error_handling (m fname path : String) (s : CheckState) :
    check_security_protocols false (.errAfter [] m) s =
      check_result s "Security Protocols" true
        "No obvious security issues detected" ∧
    check_security_protocols false (.completed [⟨fname, path, none⟩]) s =
      check_security_protocols false (.completed []) s ∧
    check_openai_connectivity (.raised m) s =
      check_result s "OpenAI API Connectivity" false
        ("Connection failed: " ++ m) ∧
    check_git_status (.raised m) s = .error m ∧
    check_git_status .notInstalled s =
      .ok (check_result s "Git Status" false "Git not installed") := by
  refine ⟨rfl, ?_, rfl, rfl, rfl⟩
  simp only [check_security_protocols]
  rw [scanIssues_unreadable]

/-- C4: the secret scan records one Fail naming the path of each scanned
readable `.py` file whose content contains `sk-` but not
`OPENAI_API_KEY`, no Fail for a file that also contains the variable name,
and a single Pass when no file yields an issue. -/
theorem c4_secret_scan (files : List PyFile) (s : CheckState) :
    (∀ fn p c, suspicious ⟨fn, p, some c⟩ =
      (strEnds fn ".py" && (strContains c "sk-" &&
        !strContains c "OPENAI_API_KEY"))) ∧
    (check_security_protocols false (.completed files) s).results =
      s.results ++
        (if (files.filter suspicious).isEmpty then
          [("Security Protocols", true, "No obvious security issues detected")]
        else
          (files.filter suspicious).map
            (fun f => ("Security Protocols", false,
              "Potential hardcoded key in " ++ f.path))) := by
  refine ⟨fun fn p c => rfl, ?_⟩
  rw [sec_results_decomp]
  unfold secResults
  simp only [scanIssues_eq_filter]
  congr 1
  generalize files.filter suspicious = L
  cases L with
  | nil => rfl
  | cons a t => simp [List.map_map, Function.comp]

/-- C5: the git check yields Pass on a clean tree, a Warn (which leaves
the fail counter untouched) on uncommitted changes, and Fail both when git
is not installed and when the command returns a nonzero code. -/
theorem c5_git_status (s : CheckState) (out : String) (rc : Int) :
    (pyStrip out = "" →
      check_git_status (.ran 0 out) s =
        .ok (check_result s "Git Status" true "Working directory clean")) ∧
    (pyStrip out ≠ "" →
      check_git_status (.ran 0 out) s =
        .ok (warning_result s "Git Status" "Uncommitted changes detected") ∧
      (warning_result s "Git Status" "Uncommitted changes detected").checks_failed
        = s.checks_failed ∧
      (warning_result s "Git Status" "Uncommitted changes detected").warnings
        = s.warnings + 1) ∧
    (rc ≠ 0 →
      check_git_status (.ran rc out) s =
        .ok (check_result s "Git Status" false
          "Not a git repository or git error")) ∧
    check_git_status .notInstalled s =
      .ok (check_result s "Git Status" false "Git not installed") := by
  refine ⟨?_, ?_, ?_, rfl⟩
  · intro hout
    have he : (pyStrip out).isEmpty = true := by
      rw [String.isEmpty_iff]
      exact hout
    simp [check_git_status, he]
  · intro hout
    have he : (pyStrip out).isEmpty = false := by
      rcases Bool.eq_false_or_eq_true ((pyStrip out).isEmpty) with hb | hb
      · exact absurd ((String.isEmpty_iff _).mp hb) hout
      · exact hb
    exact ⟨by simp [check_git_status, he], rfl, rfl⟩
  · intro hrc
    have hb : (rc == 0) = false := by simpa using hrc
    simp [check_git_status, hb]

/-- C5 witness: the git-check classification at a clean tree, a dirty
tree, and a failing command. -/
theorem c5_witness :
    check_git_status (.ran 0 "") initState =
      .ok (check_result initState "Git Status" true "Working directory clean") ∧
    check_git_status (.ran 0 " M x\n") initState =
      .ok (warning_result initState "Git Status" "Uncommitted changes detected") ∧
    check_git_status (.ran 1 "") initState =
      .ok (check_result initState "Git Status" false
        "Not a git repository or git error") :=
  ⟨(c5_git_status initState "" 1).1 (by decide),
   ((c5_git_status initState " M x\n" 1).2.1 (by decide)).1,
   (c5_git_status initState "" 1).2.2.1 (by decide)⟩

/-- C6: after any completed run the pass and fail counters sum to the
number of recorded binary results; a warning changes neither counter nor
the result list, only its own counter, and the exit code is computed from
the fail counter alone. -/
theorem c6_counter_invariant (e : Env) (s : CheckState)
    (h : runChecks e = .ok s) :
    s.checks_passed + s.checks_failed = s.results.length ∧
    (∀ (st : CheckState) (n d : String),
      (warning_result st n d).checks_passed = st.checks_passed ∧
      (warning_result st n d).checks_failed = st.checks_failed ∧
      (warning_result st n d).results = st.results ∧
      (warning_result st n d).warnings = st.warnings + 1) ∧
    main e = .ok (if s.checks_failed == 0 then 0 else 1) := by
  refine ⟨?_, fun st n d => ⟨rfl, rfl, rfl, rfl⟩, by simp [main, h]⟩
  have h0 : countsOk initState := rfl
  unfold runChecks at h
  exact countsOk_git _ _ _
    (countsOk_security _ _ _
      (countsOk_conn _ _
        (countsOk_packages _ _
          (countsOk_key _ _
            (countsOk_py _ _ _ _ h0))))) h

/-- C6 witness: the counter invariant at a concrete all-good run. -/
theorem c6_witness :
    stateAllGood.checks_passed + stateAllGood.checks_failed =
      stateAllGood.results.length ∧
    main envAllGood = .ok (if stateAllGood.checks_failed == 0 then 0 else 1) :=
  ⟨(c6_counter_invariant envAllGood stateAllGood (by rfl)).1,
   (c6_counter_invariant envAllGood stateAllGood (by rfl)).2.2⟩

/-- C7: the summary's success rate equals pass/(pass+fail)·100 when some
binary check ran and 0 when none did — the guard keeps the computation
away from a zero denominator — and the status line reports ready exactly
when no check failed. -/
theorem c7_summary (s : CheckState) :
    (total_checks s > 0 →
      success_rate s =
        (s.checks_passed : ℚ) /
          ((s.checks_passed : ℚ) + (s.checks_failed : ℚ)) * 100) ∧
    (total_checks s = 0 → success_rate s = 0) ∧
    (missionReady s = true ↔ s.checks_failed = 0) := by
  refine ⟨?_, ?_, ?_⟩
  · intro h
    unfold success_rate
    rw [if_pos h]
    unfold total_checks
    push_cast
    ring
  · intro h
    unfold success_rate
    rw [if_neg (by omega)]
  · simp [missionReady]

/-- C7 witness: the success-rate formula at 3 passes and 1 failure and at
an empty run. -/
theorem c7_witness :
    success_rate sampleState =
      (sampleState.checks_passed : ℚ) /
        ((sampleState.checks_passed : ℚ) + (sampleState.checks_failed : ℚ)) *
        100 ∧
    success_rate initState = 0 ∧
    (missionReady sampleState = true ↔ sampleState.checks_failed = 0) :=
  ⟨(c7_summary sampleState).1 (by decide),
   (c7_summary initState).2.1 (by decide),
   (c7_summary sampleState).2.2⟩

/-- C8: the connectivity check fails with the distinct
"OpenAI package not installed" detail on an import error, fails with the
raised error's string form on any other exception, and passes when the
model-listing call succeeds. -/
theorem c8_connectivity (s : CheckState) (m : String) :
    check_openai_connectivity .importError s =
      check_result s "OpenAI API Connectivity" false
        "OpenAI package not installed" ∧
    check_openai_connectivity (.raised m) s =
      check_result s "OpenAI API Connectivity" false
        ("Connection failed: " ++ m) ∧
    check_openai_connectivity .ok s =
      check_result s "OpenAI API Connectivity" true
        "API accessible and responding" ∧
    ("OpenAI package not installed" == "Connection failed: " ++ m) = false := by
  refine ⟨rfl, rfl, rfl, ?_⟩
  rw [beq_eq_false_iff_ne]
  intro h
  have h2 : strStarts "OpenAI package not installed" "Connection" =
      strStarts ("Connection failed: " ++ m) "Connection" := by rw [h]
  have h3 : strStarts ("Connection failed: " ++ m) "Connection" = true := by
    unfold strStarts
    have hl : ("Connection failed: " ++ m).toList =
        "Connection failed: ".toList ++ m.toList := by
      simp [String.toList, String.data_append]
    rw [hl]
    exact leadsWith_append _ _ _ (by decide)
  rw [h3] at h2
  exact absurd h2 (by decide)

/-- C9: the classifications are a deterministic function of the modelled
environment — two runs whose environments agree on everything except
possibly the network outcome yield identical pass/fail classifications for
all non-network checks. -/
theorem c9_deterministic (e1 e2 : Env)
    (h1 : e1.py_major = e2.py_major) (h2 : e1.py_minor = e2.py_minor)
    (h3 : e1.py_micro = e2.py_micro) (h4 : e1.api_key = e2.api_key)
    (h5 : e1.importable = e2.importable)
    (h6 : e1.envFileExists = e2.envFileExists) (h7 : e1.walk = e2.walk)
    (h8 : e1.git = e2.git) :
    nonNetworkClassifications e1 = nonNetworkClassifications e2 := by
  obtain ⟨M1, m1, u1, k1, i1, cA, f1, w1, g1⟩ := e1
  obtain ⟨M2, m2, u2, k2, i2, cB, f2, w2, g2⟩ := e2
  simp only at h1 h2 h3 h4 h5 h6 h7 h8
  subst h1 h2 h3 h4 h5 h6 h7 h8
  cases g1 with
  | raised msg => rfl
  | notInstalled =>
    simp [nonNetworkClassifications, runChecks, check_git_status,
      check_result_results, List.filter_append, filter_secstate]
  | ran rc out =>
    rcases Bool.eq_false_or_eq_true (rc == 0) with hrc | hrc <;>
      rcases Bool.eq_false_or_eq_true ((pyStrip out).isEmpty) with ho | ho <;>
      simp [nonNetworkClassifications, runChecks, check_git_status, hrc, ho,
        check_result_results, warning_result_results, List.filter_append,
        filter_secstate]

/-- C9 witness: identical non-network classifications for the all-good
environment and the same environment with the network call failing. -/
theorem c9_witness :
    nonNetworkClassifications envAllGood =
      nonNetworkClassifications { envAllGood with conn := .importError } :=
  c9_deterministic envAllGood { envAllGood with conn := .importError }
    rfl rfl rfl rfl rfl rfl rfl rfl

/-- C10: an empty `OPENAI_API_KEY` value is classified exactly like an
unset one — Fail with the not-set detail — and not as an invalid-format
value. -/
theorem c10_empty_key_is_not_set :
    check_openai_api_key (some "") initState =
      check_result initState "OpenAI API Key" false
        "OPENAI_API_KEY environment variable not set" ∧
    check_openai_api_key (some "") initState =
      check_openai_api_key none initState ∧
    check_openai_api_key (some "") initState ≠
      check_result initState "OpenAI API Key" false
        "Key format invalid (should start with 'sk-')" :=
  ⟨rfl, rfl, by decide⟩

end ST6
